import Mathlib

/-!
Shallow embedding of the `shader_test` repository (Rust) and verification of
its specification claims.

Conventions of the embedding:
* `u8` bytes are modelled as `ℕ` (with explicit `< 256` hypotheses where a
  claim needs them); `Vec<u8>` is `List ℕ`.
* `f64` values that the program computes exactly (pixel coordinates, blend
  factors derived from bytes) are modelled as `ℚ`; the genuinely irrational
  quantities (Euclidean distances obtained with `sqrt`) are modelled as `ℝ`.
* Rust numeric casts (`as u8`, `as u32`, `as usize`) are modelled explicitly
  as truncation toward zero followed by saturation to the target range.
* `assert!` / slice-indexing panics on the paths a claim talks about are
  modelled with `Option`.
-/

/-- Truncation of a rational toward zero: the rounding direction used by every
Rust `f64`-to-integer `as` cast. -/
def rtrunc (q : ℚ) : ℤ := if 0 ≤ q then ⌊q⌋ else -⌊-q⌋

/-- Truncation of a real toward zero (same cast, for `ℝ`-modelled values). -/
noncomputable def rtruncR (x : ℝ) : ℤ := if 0 ≤ x then ⌊x⌋ else -⌊-x⌋

/-- Rust `as u8` saturating cast from `f64` (rational model): truncate toward
zero, clamp to `[0, 255]`. -/
def u8cast (q : ℚ) : ℕ := (min (max (rtrunc q) 0) 255).toNat

/-- Rust `as u8` saturating cast from `f64` (real model). -/
noncomputable def u8castR (x : ℝ) : ℕ := (min (max (rtruncR x) 0) 255).toNat

/-- Rust `as u32` saturating cast from `f64` (rational model). -/
def u32cast (q : ℚ) : ℕ := (min (max (rtrunc q) 0) (2 ^ 32 - 1)).toNat

/-- Rust `as usize` saturating cast from `f64` (rational model). -/
def usizecast (q : ℚ) : ℕ := (min (max (rtrunc q) 0) (2 ^ 64 - 1)).toNat

/-- Rust `f64::clamp(x, 0.0, 1.0)` (rational model): `min (max x 0) 1`. -/
def fclamp01 (q : ℚ) : ℚ := min (max q 0) 1

/-- Rust `f64::clamp(x, 0.0, 1.0)` on the real model. -/
noncomputable def fclamp01R (x : ℝ) : ℝ := min (max x 0) 1

/-- RGBA color value, from `src/color.rs` (`struct Color { r, g, b, a: u8 }`). -/
structure Color where
  r : ℕ
  g : ℕ
  b : ℕ
  a : ℕ
deriving DecidableEq

/-- RGB color value, from `src/color.rs` (`struct Color3 { r, g, b: u8 }`). -/
structure Color3 where
  r : ℕ
  g : ℕ
  b : ℕ
deriving DecidableEq

/-- Embeds `Color::from_rgba` from `src/color.rs`. -/
def Color.from_rgba (r g b a : ℕ) : Color := ⟨r, g, b, a⟩

/-- Embeds `Color3::from_rgb` from `src/color.rs`. -/
def Color3.from_rgb (r g b : ℕ) : Color3 := ⟨r, g, b⟩

/-- Embeds `Color3::blend` (src/color.rs lines 179-186): clamp the factor to
`[0, 1]`, then per channel `self * factor + other * (1 - factor)` cast with
`as u8`.  The factor is a `ℚ`-modelled `f64`. -/
def Color3.blend (self other : Color3) (factor : ℚ) : Color3 :=
  let f := fclamp01 factor
  { r := u8cast ((self.r : ℚ) * f + (other.r : ℚ) * (1 - f))
    g := u8cast ((self.g : ℚ) * f + (other.g : ℚ) * (1 - f))
    b := u8cast ((self.b : ℚ) * f + (other.b : ℚ) * (1 - f)) }

/-- Embeds `Color::blend` (src/color.rs lines 20-28), on the real model of
`f64` because `Map::render` calls it with an irrational factor. -/
noncomputable def Color.blend (self other : Color) (factor : ℝ) : Color :=
  let f := fclamp01R factor
  { r := u8castR ((self.r : ℝ) * f + (other.r : ℝ) * (1 - f))
    g := u8castR ((self.g : ℝ) * f + (other.g : ℝ) * (1 - f))
    b := u8castR ((self.b : ℝ) * f + (other.b : ℝ) * (1 - f))
    a := u8castR ((self.a : ℝ) * f + (other.a : ℝ) * (1 - f)) }

/-- 2D point with `f64` coordinates, from `src/point.rs`, modelled over `ℚ`. -/
structure Point where
  x : ℚ
  y : ℚ
deriving DecidableEq

/-- Embeds `struct PixelBuffer<T>` from `src/pixel_buffer.rs`: a flat byte
vector plus dimensions and the iterator cursor `index`.  The phantom color
type parameter is erased; the `Color`/`Color3` impl blocks become separate
functions suffixed `_rgba` / `_rgb`. -/
structure PixelBuffer where
  width : ℕ
  height : ℕ
  buffer : List ℕ
  index : ℕ
deriving DecidableEq

/-- Embeds `PixelBuffer::clear_iter` (src/pixel_buffer.rs lines 28-30). -/
def PixelBuffer.clear_iter (b : PixelBuffer) : PixelBuffer := { b with index := 0 }

/-- Embeds `<PixelBuffer<Color> as Iterator>::next` (src/pixel_buffer.rs lines
48-63): while `index < width * height` (the source compares the byte cursor
against the pixel count), read 4 bytes at `index` and advance `index` by 4. -/
def PixelBuffer.next_rgba (b : PixelBuffer) : Option (Color × PixelBuffer) :=
  if b.index < b.width * b.height then
    some (Color.from_rgba (b.buffer.getD b.index 0) (b.buffer.getD (b.index + 1) 0)
            (b.buffer.getD (b.index + 2) 0) (b.buffer.getD (b.index + 3) 0),
          { b with index := b.index + 4 })
  else
    none

/-- Embeds `<PixelBuffer<Color3> as Iterator>::next` (src/pixel_buffer.rs
lines 69-83): same shape with 3-byte strides. -/
def PixelBuffer.next_rgb (b : PixelBuffer) : Option (Color3 × PixelBuffer) :=
  if b.index < b.width * b.height then
    some (Color3.from_rgb (b.buffer.getD b.index 0) (b.buffer.getD (b.index + 1) 0)
            (b.buffer.getD (b.index + 2) 0),
          { b with index := b.index + 3 })
  else
    none

/-- Embeds `PixelBuffer::<Color>::new` (src/pixel_buffer.rs lines 87-107):
asserts positive dimensions, zero-fills `width*height*4` bytes, then walks
`width * height` pixels setting byte `i + 3` to 255 with `i` advancing by 4. -/
def PixelBuffer.new_rgba (width height : ℕ) : Option PixelBuffer :=
  if 0 < width ∧ 0 < height then
    some { width := width, height := height, index := 0,
           buffer := (List.range (width * height)).foldl
             (fun buf k => buf.set (4 * k + 3) 255)
             (List.replicate (width * height * 4) 0) }
  else
    none

/-- Embeds `Index<usize> for PixelBuffer<Color>` (src/pixel_buffer.rs lines
217-228): the pixel at `index` is the 4 bytes starting at `index * 4`. -/
def index_rgba (l : List ℕ) (index : ℕ) : Color :=
  let start := index * 4
  ⟨l.getD start 0, l.getD (start + 1) 0, l.getD (start + 2) 0, l.getD (start + 3) 0⟩

/-- Embeds `Index<usize> for PixelBuffer<Color3>` (src/pixel_buffer.rs lines
240-251): the pixel at `index` is the 3 bytes starting at `index * 3`. -/
def index_rgb (l : List ℕ) (index : ℕ) : Color3 :=
  let start := index * 3
  ⟨l.getD start 0, l.getD (start + 1) 0, l.getD (start + 2) 0⟩

/-- Embeds `IndexMut<usize> for PixelBuffer<Color3>` (src/pixel_buffer.rs
lines 253-261).  The source computes `start = index * 4` (unlike the `Index`
impl, which uses `index * 3`) and hands out the 3 bytes starting there; a
write through the reference stores `r, g, b` at `start, start+1, start+2`. -/
def index_mut_rgb_set (l : List ℕ) (index : ℕ) (c : Color3) : List ℕ :=
  let start := index * 4
  ((l.set start c.r).set (start + 1) c.g).set (start + 2) c.b

/-- In-bounds condition of the slice `&self.buffer[index*3 .. index*3+3]`
taken by `Index<usize> for PixelBuffer<Color3>`. -/
@[reducible] def index_rgb_in_bounds (l : List ℕ) (index : ℕ) : Prop := index * 3 + 3 ≤ l.length

/-- In-bounds condition of the slice `&mut self.buffer[index*4 .. index*4+3]`
taken by `IndexMut<usize> for PixelBuffer<Color3>`. -/
@[reducible] def index_mut_rgb_in_bounds (l : List ℕ) (index : ℕ) : Prop := index * 4 + 3 ≤ l.length

/-- Loop body of `PixelBuffer::<Color3>::merge` (src/pixel_buffer.rs lines
200-213).  State is `(buffer, i)`.  The body reads `other[i]` (RGBA), computes
`factor = other_pixel.a / 255`, blends over `self[i]` and writes the result
back through the `IndexMut` impl.  The source declares `let mut i = 0` but
never increments it, so the step returns `i` unchanged. -/
def mergeStep (otherBuf : List ℕ) (st : List ℕ × ℕ) : List ℕ × ℕ :=
  let other_pixel := index_rgba otherBuf st.2
  let factor : ℚ := (other_pixel.a : ℚ) / 255
  let other_pixel3 : Color3 := ⟨other_pixel.r, other_pixel.g, other_pixel.b⟩
  let self_pixel := index_rgb st.1 st.2
  (index_mut_rgb_set st.1 st.2 (Color3.blend other_pixel3 self_pixel factor), st.2)

/-- Embeds `PixelBuffer::<Color3>::merge` (src/pixel_buffer.rs lines 197-214):
two `assert_eq!` on the dimensions (modelled as `Option`), then the
`for y / for x` double loop, which runs `height * width` iterations of
`mergeStep` whose body never uses `x`, `y`. -/
def PixelBuffer.merge (self other : PixelBuffer) : Option PixelBuffer :=
  if self.width = other.width ∧ self.height = other.height then
    some { self with
           buffer := ((List.range (self.height * self.width)).foldl
             (fun st _ => mergeStep other.buffer st) (self.buffer, 0)).1 }
  else
    none

/-- Inner byte production of `PixelBuffer::upscale` (src/pixel_buffer.rs lines
126-144 for `Color` with `channels = 4`, lines 178-195 for `Color3` with
`channels = 3`): for each source row `i`, `factor` repetitions of the row, for
each column `j`, `factor` repetitions of the `channels` bytes starting at
`(i * width + j) * channels`. -/
def upscaleBuf (buf : List ℕ) (width height factor channels : ℕ) : List ℕ :=
  (List.range height).flatMap fun i =>
    (List.range factor).flatMap fun _ =>
      (List.range width).flatMap fun j =>
        (List.range factor).flatMap fun _ =>
          (List.range channels).map fun t => buf.getD ((i * width + j) * channels + t) 0

/-- Embeds `PixelBuffer::upscale`: replaces the buffer by `upscaleBuf` and
multiplies both dimensions by `factor`.  Instantiate `channels` with 4 for the
`PixelBuffer<Color>` impl and 3 for the `PixelBuffer<Color3>` impl. -/
def PixelBuffer.upscale (b : PixelBuffer) (channels factor : ℕ) : PixelBuffer :=
  { b with
    width := b.width * factor
    height := b.height * factor
    buffer := upscaleBuf b.buffer b.width b.height factor channels }

/-- Point light, from `src/lib.rs` (`struct Light`); `angle`/`fov` are carried
but unused by the renderer. -/
structure Light where
  position : Point
  color : Color
  intensity : ℚ
  angle : ℚ
  fov : ℚ

/-- Embeds `struct Map` from `src/lib.rs`: occupancy grid, light list, RGB
pixel buffer and the decoded 64x48 RGBA texture atlas bytes. -/
structure Map where
  height : ℕ
  width : ℕ
  sim_scale : ℕ
  lights : List Light
  squares : List (List Bool)
  pixel_buffer : List ℕ
  texture : List ℕ

/-- Embeds `Map::new` (src/lib.rs lines 30-57).  The PNG file reading and
decoding are external I/O; the function here receives the already decoded
texture byte array, which the source stores without any dimension or length
validation.  `cast_step_size` / `rays_per_degree` are stored but never read by
the core, so they are dropped from the model. -/
def Map.new (height width sim_scale : ℕ) (texture : List ℕ) : Map :=
  { height := height
    width := width
    sim_scale := sim_scale
    lights := []
    squares := List.replicate height (List.replicate width false)
    pixel_buffer := List.replicate ((height * 8 * sim_scale) * (width * 8 * sim_scale) * 3) 0
    texture := texture }

/-- Embeds `Map::add_light` (src/lib.rs lines 59-61). -/
def Map.add_light (m : Map) (light : Light) : Map := { m with lights := m.lights ++ [light] }

/-- Output height in pixels, `self.height * 8 * self.sim_scale`. -/
def Map.H8 (m : Map) : ℕ := m.height * 8 * m.sim_scale

/-- Output width in pixels, `self.width * 8 * self.sim_scale`. -/
def Map.W8 (m : Map) : ℕ := m.width * 8 * m.sim_scale

/-- The `scaled_point` computed for destination pixel `(x, y)` in
`Map::color_walls` and `Map::render`: `x as f64 / 8. / sim_scale as f64` and
likewise for `y`. -/
def Map.scaledPoint (m : Map) (x y : ℕ) : Point :=
  ⟨(x : ℚ) / 8 / (m.sim_scale : ℚ), (y : ℚ) / 8 / (m.sim_scale : ℚ)⟩

/-- Occupancy lookup `self.squares[gy][gx]` used throughout `src/lib.rs`. -/
def Map.sq (m : Map) (gy gx : ℕ) : Bool := (m.squares.getD gy []).getD gx false

/-- Embeds `Map::is_within_square` (src/lib.rs lines 262-271): truncate the
point to grid indices with `as usize` and test the occupancy grid, treating
out-of-range indices as unoccupied. -/
def Map.is_within_square (m : Map) (point : Point) : Bool :=
  let grid_x := usizecast point.x
  let grid_y := usizecast point.y
  if grid_x < m.width ∧ grid_y < m.height then m.sq grid_y grid_x else false

/-- Embeds `Map::get_root_square` (src/lib.rs lines 273-278): the sub-tile
offset `floor((coord * 8) % 8)` per coordinate, where `%` is the Rust `f64`
remainder `a - b * trunc(a / b)`. -/
def Map.get_root_square (point : Point) : Point :=
  ⟨(⌊point.x * 8 - 8 * (rtrunc (point.x * 8 / 8) : ℚ)⌋ : ℤ), (⌊point.y * 8 - 8 * (rtrunc (point.y * 8 / 8) : ℚ)⌋ : ℤ)⟩

/-- Embeds `Map::get_surrounding_square_bitmap` (src/lib.rs lines 301-343):
8-neighbor occupancy bitmask, MSB = top-left neighbor, LSB = bottom-right
neighbor; neighbors outside the grid contribute 0.  (Rust would underflow on
`self.width as usize - 1` when `width = 0`; `ℕ` subtraction makes the bound
`0`, which yields the same `false` branch tests for in-grid points.) -/
def Map.get_surrounding_square_bitmap (m : Map) (point : Point) : ℕ :=
  let grid_x := usizecast point.x
  let grid_y := usizecast point.y
  (if 0 < grid_x ∧ 0 < grid_y ∧ m.sq (grid_y - 1) (grid_x - 1) then 128 else 0) |||
  (if 0 < grid_y ∧ m.sq (grid_y - 1) grid_x then 64 else 0) |||
  (if grid_x < m.width - 1 ∧ 0 < grid_y ∧ m.sq (grid_y - 1) (grid_x + 1) then 32 else 0) |||
  (if 0 < grid_x ∧ m.sq grid_y (grid_x - 1) then 16 else 0) |||
  (if grid_x < m.width - 1 ∧ m.sq grid_y (grid_x + 1) then 8 else 0) |||
  (if 0 < grid_x ∧ grid_y < m.height - 1 ∧ m.sq (grid_y + 1) (grid_x - 1) then 4 else 0) |||
  (if grid_y < m.height - 1 ∧ m.sq (grid_y + 1) grid_x then 2 else 0) |||
  (if grid_x < m.width - 1 ∧ grid_y < m.height - 1 ∧ m.sq (grid_y + 1) (grid_x + 1) then 1 else 0)

/-- The 256-arm `match bitmap` table of `Map::get_tex_cord` (src/lib.rs lines
352-1383), transcribed as a table indexed by the bitmask value: entry `b`
holds the `(x, y)` pair of the source arm whose binary pattern equals `b`
(each arm is annotated below).  Every arm of the source match is a constant
pair, so the match is exactly this lookup. -/
def texTable : List (ℕ × ℕ) :=
  [
    (56, 0), -- arm 0b000_00_000 = 0
    (56, 0), -- arm 0b000_00_001 = 1
    (48, 0), -- arm 0b000_00_010 = 2
    (48, 0), -- arm 0b000_00_011 = 3
    (56, 0), -- arm 0b000_00_100 = 4
    (56, 0), -- arm 0b000_00_101 = 5
    (48, 0), -- arm 0b000_00_110 = 6
    (48, 0), -- arm 0b000_00_111 = 7
    (0, 24), -- arm 0b000_01_000 = 8
    (0, 24), -- arm 0b000_01_001 = 9
    (56, 16), -- arm 0b000_01_010 = 10
    (0, 0), -- arm 0b000_01_011 = 11
    (0, 24), -- arm 0b000_01_100 = 12
    (0, 24), -- arm 0b000_01_101 = 13
    (56, 16), -- arm 0b000_01_110 = 14
    (0, 0), -- arm 0b000_01_111 = 15
    (16, 24), -- arm 0b000_10_000 = 16
    (16, 24), -- arm 0b000_10_001 = 17
    (56, 8), -- arm 0b000_10_010 = 18
    (56, 8), -- arm 0b000_10_011 = 19
    (16, 24), -- arm 0b000_10_100 = 20
    (16, 24), -- arm 0b000_10_101 = 21
    (16, 0), -- arm 0b000_10_110 = 22
    (16, 0), -- arm 0b000_10_111 = 23
    (8, 24), -- arm 0b000_11_000 = 24
    (8, 24), -- arm 0b000_11_001 = 25
    (8, 40), -- arm 0b000_11_010 = 26
    (16, 40), -- arm 0b000_11_011 = 27
    (8, 24), -- arm 0b000_11_100 = 28
    (8, 24), -- arm 0b000_11_101 = 29
    (0, 40), -- arm 0b000_11_110 = 30
    (8, 0), -- arm 0b000_11_111 = 31
    (56, 0), -- arm 0b001_00_000 = 32
    (56, 0), -- arm 0b001_00_001 = 33
    (48, 0), -- arm 0b001_00_010 = 34
    (48, 0), -- arm 0b001_00_011 = 35
    (56, 0), -- arm 0b001_00_100 = 36
    (56, 0), -- arm 0b001_00_101 = 37
    (48, 0), -- arm 0b001_00_110 = 38
    (48, 0), -- arm 0b001_00_111 = 39
    (0, 24), -- arm 0b001_01_000 = 40
    (0, 24), -- arm 0b001_01_001 = 41
    (56, 16), -- arm 0b001_01_010 = 42
    (0, 0), -- arm 0b001_01_011 = 43
    (0, 24), -- arm 0b001_01_100 = 44
    (0, 24), -- arm 0b001_01_101 = 45
    (56, 16), -- arm 0b001_01_110 = 46
    (0, 0), -- arm 0b001_01_111 = 47
    (16, 24), -- arm 0b001_10_000 = 48
    (16, 24), -- arm 0b001_10_001 = 49
    (56, 8), -- arm 0b001_10_010 = 50
    (56, 8), -- arm 0b001_10_011 = 51
    (16, 24), -- arm 0b001_10_100 = 52
    (16, 24), -- arm 0b001_10_101 = 53
    (16, 0), -- arm 0b001_10_110 = 54
    (16, 0), -- arm 0b001_10_111 = 55
    (8, 24), -- arm 0b001_11_000 = 56
    (8, 24), -- arm 0b001_11_001 = 57
    (8, 40), -- arm 0b001_11_010 = 58
    (16, 40), -- arm 0b001_11_011 = 59
    (8, 24), -- arm 0b001_11_100 = 60
    (8, 24), -- arm 0b001_11_101 = 61
    (0, 40), -- arm 0b001_11_110 = 62
    (8, 0), -- arm 0b001_11_111 = 63
    (48, 16), -- arm 0b010_00_000 = 64
    (48, 16), -- arm 0b010_00_001 = 65
    (48, 8), -- arm 0b010_00_010 = 66
    (48, 8), -- arm 0b010_00_011 = 67
    (48, 16), -- arm 0b010_00_100 = 68
    (48, 16), -- arm 0b010_00_101 = 69
    (48, 8), -- arm 0b010_00_110 = 70
    (48, 8), -- arm 0b010_00_111 = 71
    (56, 24), -- arm 0b010_01_000 = 72
    (56, 24), -- arm 0b010_01_001 = 73
    (48, 32), -- arm 0b010_01_010 = 74
    (48, 40), -- arm 0b010_01_011 = 75
    (56, 24), -- arm 0b010_01_100 = 76
    (56, 24), -- arm 0b010_01_101 = 77
    (48, 32), -- arm 0b010_01_110 = 78
    (48, 40), -- arm 0b010_01_111 = 79
    (56, 32), -- arm 0b010_10_000 = 80
    (56, 32), -- arm 0b010_10_001 = 81
    (40, 32), -- arm 0b010_10_010 = 82
    (40, 32), -- arm 0b010_10_011 = 83
    (56, 32), -- arm 0b010_10_100 = 84
    (56, 32), -- arm 0b010_10_101 = 85
    (40, 40), -- arm 0b010_10_110 = 86
    (40, 40), -- arm 0b010_10_111 = 87
    (8, 32), -- arm 0b010_11_000 = 88
    (8, 32), -- arm 0b010_11_001 = 89
    (32, 8), -- arm 0b010_11_010 = 90
    (32, 32), -- arm 0b010_11_011 = 91
    (8, 32), -- arm 0b010_11_100 = 92
    (8, 32), -- arm 0b010_11_101 = 93
    (24, 32), -- arm 0b010_11_110 = 94
    (32, 16), -- arm 0b010_11_111 = 95
    (48, 16), -- arm 0b011_00_000 = 96
    (48, 16), -- arm 0b011_00_001 = 97
    (48, 8), -- arm 0b011_00_010 = 98
    (48, 8), -- arm 0b011_00_011 = 99
    (48, 16), -- arm 0b011_00_100 = 100
    (48, 16), -- arm 0b011_00_101 = 101
    (48, 8), -- arm 0b011_00_110 = 102
    (48, 8), -- arm 0b011_00_111 = 103
    (0, 16), -- arm 0b011_01_000 = 104
    (0, 16), -- arm 0b011_01_001 = 105
    (48, 24), -- arm 0b011_01_010 = 106
    (0, 8), -- arm 0b011_01_011 = 107
    (0, 16), -- arm 0b011_01_100 = 108
    (0, 16), -- arm 0b011_01_101 = 109
    (48, 24), -- arm 0b011_01_110 = 110
    (0, 8), -- arm 0b011_01_111 = 111
    (56, 32), -- arm 0b011_10_000 = 112
    (56, 32), -- arm 0b011_10_001 = 113
    (40, 32), -- arm 0b011_10_010 = 114
    (40, 32), -- arm 0b011_10_011 = 115
    (56, 32), -- arm 0b011_10_100 = 116
    (56, 32), -- arm 0b011_10_101 = 117
    (40, 40), -- arm 0b011_10_110 = 118
    (40, 40), -- arm 0b011_10_111 = 119
    (16, 32), -- arm 0b011_11_000 = 120
    (16, 32), -- arm 0b011_11_001 = 121
    (32, 24), -- arm 0b011_11_010 = 122
    (40, 8), -- arm 0b011_11_011 = 123
    (16, 32), -- arm 0b011_11_100 = 124
    (16, 32), -- arm 0b011_11_101 = 125
    (24, 40), -- arm 0b011_11_110 = 126
    (40, 16), -- arm 0b011_11_111 = 127
    (56, 0), -- arm 0b100_00_000 = 128
    (56, 0), -- arm 0b100_00_001 = 129
    (48, 0), -- arm 0b100_00_010 = 130
    (48, 0), -- arm 0b100_00_011 = 131
    (8, 8), -- arm 0b100_00_100 = 132
    (8, 8), -- arm 0b100_00_101 = 133
    (48, 0), -- arm 0b100_00_110 = 134
    (48, 0), -- arm 0b100_00_111 = 135
    (0, 24), -- arm 0b100_01_000 = 136
    (0, 24), -- arm 0b100_01_001 = 137
    (56, 16), -- arm 0b100_01_010 = 138
    (0, 0), -- arm 0b100_01_011 = 139
    (0, 24), -- arm 0b100_01_100 = 140
    (0, 24), -- arm 0b100_01_101 = 141
    (56, 16), -- arm 0b100_01_110 = 142
    (0, 0), -- arm 0b100_01_111 = 143
    (16, 24), -- arm 0b100_10_000 = 144
    (16, 24), -- arm 0b100_10_001 = 145
    (56, 8), -- arm 0b100_10_010 = 146
    (56, 8), -- arm 0b100_10_011 = 147
    (16, 24), -- arm 0b100_10_100 = 148
    (16, 24), -- arm 0b100_10_101 = 149
    (16, 0), -- arm 0b100_10_110 = 150
    (16, 0), -- arm 0b100_10_111 = 151
    (8, 24), -- arm 0b100_11_000 = 152
    (8, 24), -- arm 0b100_11_001 = 153
    (8, 40), -- arm 0b100_11_010 = 154
    (16, 40), -- arm 0b100_11_011 = 155
    (8, 24), -- arm 0b100_11_100 = 156
    (8, 24), -- arm 0b100_11_101 = 157
    (0, 40), -- arm 0b100_11_110 = 158
    (8, 0), -- arm 0b100_11_111 = 159
    (8, 8), -- arm 0b101_00_000 = 160
    (8, 8), -- arm 0b101_00_001 = 161
    (48, 0), -- arm 0b101_00_010 = 162
    (48, 0), -- arm 0b101_00_011 = 163
    (8, 8), -- arm 0b101_00_100 = 164
    (8, 8), -- arm 0b101_00_101 = 165
    (48, 0), -- arm 0b101_00_110 = 166
    (48, 0), -- arm 0b101_00_111 = 167
    (0, 24), -- arm 0b101_01_000 = 168
    (0, 24), -- arm 0b101_01_001 = 169
    (56, 16), -- arm 0b101_01_010 = 170
    (0, 0), -- arm 0b101_01_011 = 171
    (0, 24), -- arm 0b101_01_100 = 172
    (0, 24), -- arm 0b101_01_101 = 173
    (56, 16), -- arm 0b101_01_110 = 174
    (0, 0), -- arm 0b101_01_111 = 175
    (16, 24), -- arm 0b101_10_000 = 176
    (16, 24), -- arm 0b101_10_001 = 177
    (56, 8), -- arm 0b101_10_010 = 178
    (56, 8), -- arm 0b101_10_011 = 179
    (16, 24), -- arm 0b101_10_100 = 180
    (16, 24), -- arm 0b101_10_101 = 181
    (16, 0), -- arm 0b101_10_110 = 182
    (16, 0), -- arm 0b101_10_111 = 183
    (8, 24), -- arm 0b101_11_000 = 184
    (8, 24), -- arm 0b101_11_001 = 185
    (8, 40), -- arm 0b101_11_010 = 186
    (16, 40), -- arm 0b101_11_011 = 187
    (8, 24), -- arm 0b101_11_100 = 188
    (8, 24), -- arm 0b101_11_101 = 189
    (0, 40), -- arm 0b101_11_110 = 190
    (8, 0), -- arm 0b101_11_111 = 191
    (48, 16), -- arm 0b110_00_000 = 192
    (48, 16), -- arm 0b110_00_001 = 193
    (48, 8), -- arm 0b110_00_010 = 194
    (48, 8), -- arm 0b110_00_011 = 195
    (48, 16), -- arm 0b110_00_100 = 196
    (48, 16), -- arm 0b110_00_101 = 197
    (48, 8), -- arm 0b110_00_110 = 198
    (48, 8), -- arm 0b110_00_111 = 199
    (56, 24), -- arm 0b110_01_000 = 200
    (56, 24), -- arm 0b110_01_001 = 201
    (48, 32), -- arm 0b110_01_010 = 202
    (48, 40), -- arm 0b110_01_011 = 203
    (56, 24), -- arm 0b110_01_100 = 204
    (56, 24), -- arm 0b110_01_101 = 205
    (48, 32), -- arm 0b110_01_110 = 206
    (48, 40), -- arm 0b110_01_111 = 207
    (16, 16), -- arm 0b110_10_000 = 208
    (16, 16), -- arm 0b110_10_001 = 209
    (40, 24), -- arm 0b110_10_010 = 210
    (40, 24), -- arm 0b110_10_011 = 211
    (16, 16), -- arm 0b110_10_100 = 212
    (16, 16), -- arm 0b110_10_101 = 213
    (16, 8), -- arm 0b110_10_110 = 214
    (16, 8), -- arm 0b110_10_111 = 215
    (0, 32), -- arm 0b110_11_000 = 216
    (0, 32), -- arm 0b110_11_001 = 217
    (24, 24), -- arm 0b110_11_010 = 218
    (32, 40), -- arm 0b110_11_011 = 219
    (0, 32), -- arm 0b110_11_100 = 220
    (0, 32), -- arm 0b110_11_101 = 221
    (24, 8), -- arm 0b110_11_110 = 222
    (24, 16), -- arm 0b110_11_111 = 223
    (48, 16), -- arm 0b111_00_000 = 224
    (48, 16), -- arm 0b111_00_001 = 225
    (48, 8), -- arm 0b111_00_010 = 226
    (48, 8), -- arm 0b111_00_011 = 227
    (48, 16), -- arm 0b111_00_100 = 228
    (48, 16), -- arm 0b111_00_101 = 229
    (48, 8), -- arm 0b111_00_110 = 230
    (48, 8), -- arm 0b111_00_111 = 231
    (0, 16), -- arm 0b111_01_000 = 232
    (0, 16), -- arm 0b111_01_001 = 233
    (48, 24), -- arm 0b111_01_010 = 234
    (0, 8), -- arm 0b111_01_011 = 235
    (0, 16), -- arm 0b111_01_100 = 236
    (0, 16), -- arm 0b111_01_101 = 237
    (48, 24), -- arm 0b111_01_110 = 238
    (0, 8), -- arm 0b111_01_111 = 239
    (16, 16), -- arm 0b111_10_000 = 240
    (16, 16), -- arm 0b111_10_001 = 241
    (40, 24), -- arm 0b111_10_010 = 242
    (40, 24), -- arm 0b111_10_011 = 243
    (16, 16), -- arm 0b111_10_100 = 244
    (16, 16), -- arm 0b111_10_101 = 245
    (16, 8), -- arm 0b111_10_110 = 246
    (16, 8), -- arm 0b111_10_111 = 247
    (8, 16), -- arm 0b111_11_000 = 248
    (8, 16), -- arm 0b111_11_001 = 249
    (32, 0), -- arm 0b111_11_010 = 250
    (40, 0), -- arm 0b111_11_011 = 251
    (8, 16), -- arm 0b111_11_100 = 252
    (8, 16), -- arm 0b111_11_101 = 253
    (24, 0), -- arm 0b111_11_110 = 254
    (8, 8) -- arm 0b111_11_111 = 255
  ]

/-- Lookup into `texTable`, total over `ℕ`.  The source match is exhaustive
over `u8`, so inputs at 256 and above are unreachable; the default repeats the
all-clear piece `(56, 0)` of arm `0b000_00_000`. -/
def get_tex_base (bitmap : ℕ) : ℕ × ℕ := texTable.getD bitmap (56, 0)

/-- Embeds `Map::get_tex_cord` (src/lib.rs lines 345-1388): the table
coordinate for the bitmask plus the `get_root_square` sub-tile offset, each
offset coordinate cast with `as u32`.  (`self` is unused by the source
method.) -/
def get_tex_cord (point : Point) (bitmap : ℕ) : ℕ × ℕ :=
  let root_square := Map.get_root_square point
  ((get_tex_base bitmap).1 + u32cast root_square.x,
   (get_tex_base bitmap).2 + u32cast root_square.y)

/-- Embeds `Map::point_has_los` (src/lib.rs lines 280-299): Euclidean distance
between the two points, `steps = ceil(distance) as usize * 20`, then `steps`
evenly spaced sample points starting at `a` (end exclusive); line of sight
fails as soon as a sample lies within an occupied square.  The distance is the
exact real `sqrt`; the per-step increments `dx / steps` are again rational.
(When `steps = 0` the `f64` division of the source produces `NaN`, but the
empty loop never reads it; the `ℚ` junk value `0` is equally unread.) -/
noncomputable def Map.point_has_los (m : Map) (a b : Point) : Bool :=
  let dx : ℚ := b.x - a.x
  let dy : ℚ := b.y - a.y
  let distance : ℝ := Real.sqrt (((dx : ℝ)) ^ 2 + ((dy : ℝ)) ^ 2)
  let steps : ℕ := (max ⌈distance⌉ 0).toNat * 20
  let dxs : ℚ := dx / (steps : ℚ)
  let dys : ℚ := dy / (steps : ℚ)
  (List.range steps).all fun i => !(m.is_within_square ⟨a.x + dxs * (i : ℚ), a.y + dys * (i : ℚ)⟩)

/-- Embeds `Map::create_pixel_layer` (src/lib.rs lines 106-111): an all-zero
RGBA layer of `H8 * W8` pixels (in particular every alpha byte is 0). -/
def Map.create_pixel_layer (m : Map) : List ℕ := List.replicate (m.H8 * m.W8 * 4) 0

/-- Destination pixel coordinates `(x, y)` in the order the nested
`for y { for x }` loops of `Map::color_walls` and `Map::render` visit them
(row-major, `y` outer). -/
def Map.pixelPositions (m : Map) : List (ℕ × ℕ) :=
  (List.range m.H8).flatMap fun y => (List.range m.W8).map fun x => (x, y)

/-- Loop body of `Map::color_walls` (src/lib.rs lines 78-101), state
`(layer, i)`: for an occupied tile, look up the neighbor bitmask and the atlas
coordinate and copy the 4 texture bytes at `(tex_y * 64 + tex_x) * 4` into the
layer at `i`; always advance `i` by 4. -/
def Map.cwStep (m : Map) (st : List ℕ × ℕ) (pos : ℕ × ℕ) : List ℕ × ℕ :=
  let scaled_point := m.scaledPoint pos.1 pos.2
  if m.is_within_square scaled_point then
    let bitmask := m.get_surrounding_square_bitmap scaled_point
    let tex := get_tex_cord scaled_point bitmask
    let cr := m.texture.getD ((tex.2 * 64 + tex.1) * 4) 0
    let cg := m.texture.getD ((tex.2 * 64 + tex.1) * 4 + 1) 0
    let cb := m.texture.getD ((tex.2 * 64 + tex.1) * 4 + 2) 0
    let ca := m.texture.getD ((tex.2 * 64 + tex.1) * 4 + 3) 0
    (((((st.1.set st.2 cr).set (st.2 + 1) cg).set (st.2 + 2) cb).set (st.2 + 3) ca), st.2 + 4)
  else
    (st.1, st.2 + 4)

/-- Embeds `Map::color_walls` (src/lib.rs lines 75-104): fold `cwStep` over
all destination pixels starting from the all-zero RGBA layer. -/
def Map.color_walls (m : Map) : List ℕ :=
  ((m.pixelPositions).foldl (m.cwStep) (m.create_pixel_layer, 0)).1

/-- Loop of `Map::merge_pixel_layer` (src/lib.rs lines 113-140), by fuel:
while `selfi < buffer.len()`, blend the RGB bytes at `selfi` of the base with
the RGBA pixel at `otheri` of the layer (`factor = other[otheri + 3] / 255`,
both colors completed with alpha `0xff`), write the result's RGB back, advance
`selfi` by 3 and `otheri` by 4.  Fuel `base.length` dominates the iteration
count, so the model runs the loop to completion. -/
noncomputable def mergeLayerLoop (other : List ℕ) : ℕ → List ℕ → ℕ → ℕ → List ℕ
  | 0, buf, _, _ => buf
  | fuel + 1, buf, selfi, otheri =>
    if selfi < buf.length then
      let self_color : Color := ⟨buf.getD selfi 0, buf.getD (selfi + 1) 0, buf.getD (selfi + 2) 0, 255⟩
      let other_color : Color := ⟨other.getD otheri 0, other.getD (otheri + 1) 0, other.getD (otheri + 2) 0, 255⟩
      let factor : ℚ := (other.getD (otheri + 3) 0 : ℚ) / 255
      let new_color := Color.blend other_color self_color ((factor : ℝ))
      mergeLayerLoop other fuel
        (((buf.set selfi new_color.r).set (selfi + 1) new_color.g).set (selfi + 2) new_color.b)
        (selfi + 3) (otheri + 4)
    else
      buf

/-- Embeds `Map::merge_pixel_layer` applied to `self.pixel_buffer`. -/
noncomputable def mergePixelLayer (base other : List ℕ) : List ℕ :=
  mergeLayerLoop other base.length base 0 0

/-- Per-light body of the `for light in &self.lights` loop in `Map::render`
(src/lib.rs lines 198-209): Euclidean distance from the light to the scaled
point; when `distance < intensity` and the light has line of sight to the
point, blend the light color over the accumulator with factor
`1 - distance / intensity`. -/
noncomputable def Map.lightFoldStep (m : Map) (scaled_point : Point) (acc : Color) (light : Light) : Color :=
  let distance : ℝ :=
    Real.sqrt (((light.position.x - scaled_point.x : ℚ) : ℝ) ^ 2 +
               ((light.position.y - scaled_point.y : ℚ) : ℝ) ^ 2)
  if distance < (light.intensity : ℝ) ∧ m.point_has_los light.position scaled_point = true then
    Color.blend light.color acc (1 - distance / (light.intensity : ℝ))
  else
    acc

/-- Per-pixel color computed by the lighting loop of `Map::render` (src/lib.rs
lines 185-209) from the three buffer bytes of the pixel: start from the bytes
with alpha `0xff`; if the pixel is not inside an occupied square, fold the
light list over it. -/
noncomputable def Map.perPixelColor (m : Map) (x y : ℕ) (r g b : ℕ) : Color :=
  let scaled_point := m.scaledPoint x y
  let pixel_color : Color := ⟨r, g, b, 255⟩
  if !(m.is_within_square scaled_point) then
    m.lights.foldl (m.lightFoldStep scaled_point) pixel_color
  else
    pixel_color

/-- Loop body of the lighting pass of `Map::render`, state `(buffer, i)`: read
the pixel bytes at `i`, compute `perPixelColor`, write its RGB back at `i` and
advance `i` by 3. -/
noncomputable def Map.lpStep (m : Map) (st : List ℕ × ℕ) (pos : ℕ × ℕ) : List ℕ × ℕ :=
  let r := st.1.getD st.2 0
  let g := st.1.getD (st.2 + 1) 0
  let b := st.1.getD (st.2 + 2) 0
  let c := m.perPixelColor pos.1 pos.2 r g b
  (((st.1.set st.2 c.r).set (st.2 + 1) c.g).set (st.2 + 2) c.b, st.2 + 3)

/-- The lighting pass of `Map::render` (src/lib.rs lines 182-216) as a
function of the buffer contents: the nested pixel loops with the running byte
cursor `i`. -/
noncomputable def Map.lightingPass (m : Map) (buf : List ℕ) : List ℕ :=
  ((m.pixelPositions).foldl (m.lpStep) (buf, 0)).1

/-- The pixel buffer after the wall layer has been composited: `color_walls`
merged onto `self.pixel_buffer` (the first two statements of `Map::render`). -/
noncomputable def Map.wallBuffer (m : Map) : List ℕ :=
  mergePixelLayer m.pixel_buffer m.color_walls

/-- Embeds `Map::render` (src/lib.rs lines 172-217): composite the wall layer,
return early if there are no lights, otherwise run the lighting pass. -/
noncomputable def Map.render (m : Map) : Map :=
  if m.lights.length = 0 then
    { m with pixel_buffer := m.wallBuffer }
  else
    { m with pixel_buffer := m.lightingPass m.wallBuffer }

/-- Component extractor for `Color` RGB bytes: 0 ↦ r, 1 ↦ g, other ↦ b. -/
def colorComp (c : ℕ) (col : Color) : ℕ := if c = 0 then col.r else if c = 1 then col.g else col.b

/-- Component extractor for an RGB triple. -/
def triComp (c : ℕ) (t : ℕ × ℕ × ℕ) : ℕ := if c = 0 then t.1 else if c = 1 then t.2.1 else t.2.2

/-- Spec-side blend of a light color over an accumulated RGB triple, following
the specification's words (§4.1): clamp the factor to `[0, 1]`, per channel
`self * factor + other * (1 - factor)`, truncate to `u8`. -/
noncomputable def specBlendOver (light : Color) (acc : ℕ × ℕ × ℕ) (factor : ℝ) : ℕ × ℕ × ℕ :=
  let f := fclamp01R factor
  (u8castR ((light.r : ℝ) * f + (acc.1 : ℝ) * (1 - f)),
   u8castR ((light.g : ℝ) * f + (acc.2.1 : ℝ) * (1 - f)),
   u8castR ((light.b : ℝ) * f + (acc.2.2 : ℝ) * (1 - f)))

/-- Spec-side per-light step, following the claim's words: skip the light when
its Euclidean distance `d` to the pixel's tile-space coordinate satisfies
`d ≥ intensity` or when line of sight from the light position to the pixel
fails; otherwise blend the light's color over the accumulator with factor
`1 - d / intensity`. -/
noncomputable def specLightStep (m : Map) (p : Point) (acc : ℕ × ℕ × ℕ) (light : Light) : ℕ × ℕ × ℕ :=
  let d : ℝ :=
    Real.sqrt (((light.position.x - p.x : ℚ) : ℝ) ^ 2 + ((light.position.y - p.y : ℚ) : ℝ) ^ 2)
  if (light.intensity : ℝ) ≤ d ∨ m.point_has_los light.position p = false then acc
  else specBlendOver light.color acc (1 - d / (light.intensity : ℝ))

/-- Spec-side lighting of one pixel: left fold of the lights, in collection
order, over the pixel's starting RGB triple. -/
noncomputable def specLightFold (m : Map) (p : Point) (c0 : ℕ × ℕ × ℕ) : ℕ × ℕ × ℕ :=
  m.lights.foldl (specLightStep m p) c0

/-- Concrete 1-by-1 map whose single tile is occupied, with one light
(position `(1/2, 1/2)`, white, intensity `3/2`), for witnesses. -/
def occupiedTestMap : Map :=
  ⟨1, 1, 1, [⟨⟨1/2, 1/2⟩, ⟨255, 255, 255, 255⟩, 3/2, 0, 0⟩], [[true]],
    List.replicate 192 0, []⟩

/-- Concrete 1-by-1 map whose single tile is unoccupied, with one light, for
witnesses. -/
def freeTestMap : Map :=
  ⟨1, 1, 1, [⟨⟨1/2, 1/2⟩, ⟨255, 255, 255, 255⟩, 3/2, 0, 0⟩], [[false]],
    List.replicate 192 0, []⟩

set_option maxRecDepth 4000 in
/-- Helper for the table: every entry is bounded by `(56, 40)`. -/
theorem texTable_all_bounded : ∀ p ∈ texTable, p.1 ≤ 56 ∧ p.2 ≤ 40 := by decide

/-- Helper: the table base returned by `get_tex_base` is always within
`(56, 40)`, for the 256 reachable bitmasks and for the unreachable default. -/
theorem get_tex_base_bounded (b : ℕ) : (get_tex_base b).1 ≤ 56 ∧ (get_tex_base b).2 ≤ 40 := by
  rcases Nat.lt_or_ge b texTable.length with h | h
  · have hg : get_tex_base b = texTable[b] := List.getD_eq_getElem _ _ h
    rw [hg]
    exact texTable_all_bounded _ (List.getElem_mem h)
  · have hg : get_tex_base b = (56, 0) := List.getD_eq_default _ _ h
    rw [hg]
    exact ⟨by decide, by decide⟩

/-- Length of `(List.range n).flatMap g` when every block has length `blk`. -/
theorem flatMap_range_length {β : Type} (g : ℕ → List β) (n blk : ℕ)
    (h : ∀ i < n, (g i).length = blk) : ((List.range n).flatMap g).length = n * blk := by
  induction n with
  | zero => simp
  | succ n ih =>
    rw [List.range_succ, List.flatMap_append]
    simp only [List.length_append, ih (fun i hi => h i (Nat.lt_succ_of_lt hi)),
      List.flatMap_cons, List.flatMap_nil, List.append_nil, h n (Nat.lt_succ_self n)]
    ring

/-- Element lookup in `(List.range n).flatMap g` when every block has length
`blk`: position `i * blk + r` is position `r` of block `i`. -/
theorem flatMap_range_getElem {β : Type} (g : ℕ → List β) (n blk : ℕ)
    (h : ∀ i < n, (g i).length = blk) (i r : ℕ) (hi : i < n) (hr : r < blk) :
    ((List.range n).flatMap g)[i * blk + r]? = (g i)[r]? := by
  induction n with
  | zero => omega
  | succ n ih =>
    rw [List.range_succ, List.flatMap_append]
    have hlen : ((List.range n).flatMap g).length = n * blk :=
      flatMap_range_length g n blk (fun j hj => h j (Nat.lt_succ_of_lt hj))
    rcases Nat.lt_or_ge i n with hin | hin
    · rw [List.getElem?_append, if_pos]
      · exact ih (fun j hj => h j (Nat.lt_succ_of_lt hj)) hin
      · rw [hlen]
        calc i * blk + r < i * blk + blk := by omega
        _ = (i + 1) * blk := by ring
        _ ≤ n * blk := Nat.mul_le_mul_right blk (by omega)
    · have hieq : i = n := by omega
      subst hieq
      rw [List.getElem?_append, if_neg (by rw [hlen]; omega)]
      rw [hlen]
      simp only [List.flatMap_cons, List.flatMap_nil, List.append_nil]
      congr 1
      omega

/-- The pixel position list has one entry per destination pixel. -/
theorem pixelPositions_length (m : Map) : m.pixelPositions.length = m.H8 * m.W8 :=
  flatMap_range_length _ m.H8 m.W8 (fun _ _ => by simp)

/-- Entry `y * W8 + x` of the pixel position list is `(x, y)`. -/
theorem pixelPositions_getElem (m : Map) (x y : ℕ) (hx : x < m.W8) (hy : y < m.H8) :
    m.pixelPositions[y * m.W8 + x]? = some (x, y) := by
  unfold Map.pixelPositions
  rw [flatMap_range_getElem _ m.H8 m.W8 (fun _ _ => by simp) y x hy hx]
  simp [List.getElem?_map, List.getElem?_range, hx]

/-- Row-major index bound: `y * w + x < h * w` for in-range `x`, `y`. -/
theorem rowMajor_lt (x y w h : ℕ) (hx : x < w) (hy : y < h) : y * w + x < h * w := by
  calc y * w + x < y * w + w := by omega
  _ = (y + 1) * w := by ring
  _ ≤ h * w := Nat.mul_le_mul_right w (by omega)

/-- Setting an index to the value it already holds leaves a list unchanged. -/
theorem set_getD_self (l : List ℕ) (j : ℕ) : l.set j (l.getD j 0) = l := by
  induction l generalizing j with
  | nil => rfl
  | cons a t ih =>
    cases j with
    | zero => simp [List.set, List.getD]
    | succ n =>
      simp only [List.set, List.getD_cons_succ]
      rw [ih n]

/-- Reading through a `set` at a different index. -/
theorem getD_set_ne (l : List ℕ) (i j v d : ℕ) (h : i ≠ j) : (l.set i v).getD j d = l.getD j d := by
  simp [List.getD, List.getElem?_set_ne h]

/-- The byte cursor of the lighting-pass fold advances by 3 per pixel. -/
theorem lpFold_snd (m : Map) (L : List (ℕ × ℕ)) :
    ∀ buf i, (L.foldl m.lpStep (buf, i)).2 = i + 3 * L.length := by
  induction L with
  | nil => intro buf i; simp
  | cons a t ih =>
    intro buf i
    rw [List.foldl_cons]
    show (t.foldl m.lpStep (m.lpStep (buf, i) a)).2 = _
    rw [Map.lpStep, ih]
    simp only [List.length_cons]
    omega

/-- The lighting-pass fold preserves the buffer length. -/
theorem lpFold_length (m : Map) (L : List (ℕ × ℕ)) :
    ∀ buf i, ((L.foldl m.lpStep (buf, i)).1).length = buf.length := by
  induction L with
  | nil => intro buf i; rfl
  | cons a t ih =>
    intro buf i
    rw [List.foldl_cons]
    show ((t.foldl m.lpStep (m.lpStep (buf, i) a)).1).length = _
    rw [Map.lpStep, ih]
    simp

/-- Bytes below the cursor are never touched again by the lighting-pass fold. -/
theorem lpFold_lo (m : Map) (L : List (ℕ × ℕ)) :
    ∀ buf i j, j < i → ((L.foldl m.lpStep (buf, i)).1)[j]? = buf[j]? := by
  induction L with
  | nil => intro buf i j _; rfl
  | cons a t ih =>
    intro buf i j hj
    rw [List.foldl_cons]
    show ((t.foldl m.lpStep (m.lpStep (buf, i) a)).1)[j]? = _
    rw [Map.lpStep]
    rw [ih _ (i + 3) j (by omega)]
    rw [List.getElem?_set_ne (by omega), List.getElem?_set_ne (by omega),
      List.getElem?_set_ne (by omega)]

/-- Main lighting-pass fold lemma: after folding the remaining pixel list `L`
from state `(buf, i)`, byte `i + 3k + c` of the buffer holds component `c` of
`perPixelColor` applied to pixel `L[k]` and the three original bytes at
`i + 3k`. -/
theorem lpFold_main (m : Map) (L : List (ℕ × ℕ)) :
    ∀ buf i k c, ∀ hk : k < L.length, c < 3 → i + 3 * L.length ≤ buf.length →
    ((L.foldl m.lpStep (buf, i)).1)[i + (3 * k + c)]? =
      some (colorComp c (m.perPixelColor (L[k].1) (L[k].2)
        (buf.getD (i + 3 * k) 0) (buf.getD (i + 3 * k + 1) 0) (buf.getD (i + 3 * k + 2) 0))) := by
  induction L with
  | nil =>
    intro buf i k c hk
    exact absurd hk (by simp)
  | cons a t ih =>
    intro buf i k c hk hc hbd
    rw [List.foldl_cons]
    show ((t.foldl m.lpStep (m.lpStep (buf, i) a)).1)[i + (3 * k + c)]? = _
    rw [Map.lpStep]
    simp only []
    cases k with
    | zero =>
      rw [lpFold_lo m t _ (i + 3) (i + (3 * 0 + c)) (by omega)]
      have hlen : i + 2 < buf.length := by
        simp only [List.length_cons] at hbd
        omega
      simp only [List.getElem_cons_zero, Nat.mul_zero, Nat.add_zero]
      rcases (by omega : c = 0 ∨ c = 1 ∨ c = 2) with hc0 | hc1 | hc2
      · subst hc0
        rw [List.getElem?_set_ne (by omega), List.getElem?_set_ne (by omega)]
        simp only [Nat.add_zero]
        rw [List.getElem?_set_self (by simpa using (by omega : i < buf.length))]
        rfl
      · subst hc1
        rw [List.getElem?_set_ne (by omega)]
        rw [List.getElem?_set_self (by simpa using (by omega : i + 1 < buf.length))]
        rfl
      · subst hc2
        rw [List.getElem?_set_self (by simpa using hlen)]
        rfl
    | succ n =>
      have hidx : i + (3 * (n + 1) + c) = (i + 3) + (3 * n + c) := by ring
      rw [hidx]
      have hn : n < t.length := by simpa using hk
      set cp := m.perPixelColor a.1 a.2 (buf.getD i 0) (buf.getD (i + 1) 0) (buf.getD (i + 2) 0)
        with hcp
      set buf2 := ((buf.set i cp.r).set (i + 1) cp.g).set (i + 2) cp.b with hbuf2
      have hbd2 : (i + 3) + 3 * t.length ≤ buf2.length := by
        rw [hbuf2]
        simp only [List.length_set]
        simp only [List.length_cons] at hbd
        omega
      rw [ih buf2 (i + 3) n c hn hc hbd2]
      have eread : ∀ j, i + 3 ≤ j → buf2.getD j 0 = buf.getD j 0 := by
        intro j hj
        rw [hbuf2, getD_set_ne _ _ _ _ _ (by omega), getD_set_ne _ _ _ _ _ (by omega),
          getD_set_ne _ _ _ _ _ (by omega)]
      have e1 : buf2.getD (i + 3 + 3 * n) 0 = buf.getD (i + 3 * (n + 1)) 0 := by
        rw [eread _ (by omega)]
        congr 1
        omega
      have e2 : buf2.getD (i + 3 + 3 * n + 1) 0 = buf.getD (i + 3 * (n + 1) + 1) 0 := by
        rw [eread _ (by omega)]
        congr 1
        omega
      have e3 : buf2.getD (i + 3 + 3 * n + 2) 0 = buf.getD (i + 3 * (n + 1) + 2) 0 := by
        rw [eread _ (by omega)]
        congr 1
        omega
      rw [e1, e2, e3]
      simp

/-- In-range lookup with `getElem?` yields the `getD` value. -/
theorem getElem?_eq_some_getD (l : List ℕ) (i : ℕ) (h : i < l.length) :
    l[i]? = some (l.getD i 0) := by
  simp [List.getElem?_eq_getElem h, List.getD_eq_getElem _ _ h]

/-- The lighting pass, viewed per pixel: byte `c` of destination pixel
`(x, y)` of the output is component `c` of `perPixelColor` applied to the
pixel's input bytes. -/
theorem lightingPass_getElem (m : Map) (buf : List ℕ)
    (hlen : buf.length = 3 * (m.H8 * m.W8)) (x y c : ℕ)
    (hx : x < m.W8) (hy : y < m.H8) (hc : c < 3) :
    (m.lightingPass buf)[3 * (y * m.W8 + x) + c]? =
      some (colorComp c (m.perPixelColor x y
        (buf.getD (3 * (y * m.W8 + x)) 0)
        (buf.getD (3 * (y * m.W8 + x) + 1) 0)
        (buf.getD (3 * (y * m.W8 + x) + 2) 0))) := by
  have hk : y * m.W8 + x < m.pixelPositions.length := by
    rw [pixelPositions_length]
    exact rowMajor_lt x y m.W8 m.H8 hx hy
  have hpos : m.pixelPositions[y * m.W8 + x] = (x, y) := by
    have h1 := pixelPositions_getElem m x y hx hy
    rw [List.getElem?_eq_getElem hk] at h1
    exact Option.some.inj h1
  have hmain := lpFold_main m m.pixelPositions buf 0 (y * m.W8 + x) c hk hc
    (by rw [pixelPositions_length, hlen]; omega)
  rw [hpos] at hmain
  simpa using hmain

/-- The `merge_pixel_layer` loop preserves the buffer length. -/
theorem mergeLayerLoop_length (other : List ℕ) :
    ∀ fuel buf selfi otheri, (mergeLayerLoop other fuel buf selfi otheri).length = buf.length := by
  intro fuel
  induction fuel with
  | zero => intro buf selfi otheri; rfl
  | succ n ih =>
    intro buf selfi otheri
    rw [mergeLayerLoop]
    by_cases h : selfi < buf.length
    · rw [if_pos h, ih]
      simp
    · rw [if_neg h]

/-- The composited wall buffer has the length of the original pixel buffer. -/
theorem wallBuffer_length (m : Map) : m.wallBuffer.length = m.pixel_buffer.length := by
  unfold Map.wallBuffer mergePixelLayer
  exact mergeLayerLoop_length _ _ _ _ _

/-- Code-to-spec bridge for the per-light loop: the RGB components of the
source fold equal the spec-side fold of the RGB triple (the alpha channel
never influences the RGB channels of `Color::blend`). -/
theorem lightFold_rgb (m : Map) (p : Point) :
    ∀ (L : List Light) (acc : Color),
    ((L.foldl (m.lightFoldStep p) acc).r, (L.foldl (m.lightFoldStep p) acc).g,
     (L.foldl (m.lightFoldStep p) acc).b) = L.foldl (specLightStep m p) (acc.r, acc.g, acc.b) := by
  intro L
  induction L with
  | nil => intro acc; rfl
  | cons l t ih =>
    intro acc
    have hstep : ((m.lightFoldStep p acc l).r, (m.lightFoldStep p acc l).g,
        (m.lightFoldStep p acc l).b) = specLightStep m p (acc.r, acc.g, acc.b) l := by
      unfold Map.lightFoldStep specLightStep
      simp only []
      by_cases h1 : Real.sqrt (((l.position.x - p.x : ℚ) : ℝ) ^ 2 +
          ((l.position.y - p.y : ℚ) : ℝ) ^ 2) < (l.intensity : ℝ)
      · cases h2 : m.point_has_los l.position p with
        | false =>
          rw [if_neg (fun hcontra => by simpa using hcontra.2),
            if_pos (Or.inr rfl)]
        | true =>
          rw [if_pos ⟨h1, rfl⟩,
            if_neg (fun hcontra => hcontra.elim (fun ha => absurd h1 (not_lt.mpr ha))
              (fun hb => by simp at hb))]
          rfl
      · rw [if_neg (fun hcontra => h1 hcontra.1), if_pos (Or.inl (not_lt.mp h1))]
    rw [List.foldl_cons, List.foldl_cons, ih, hstep]

/-- C9: for every map and every point `p`, the line-of-sight test from `p` to
itself returns `true`: the distance is 0, so `steps = ceil(0) * 20 = 0`, no
sample point is tested, and visibility holds regardless of the grid. -/
theorem point_has_los_self (m : Map) (p : Point) : m.point_has_los p p = true := by
  unfold Map.point_has_los
  simp [sub_self, Real.sqrt_zero]

/-- C4: after `Map::render`, every pixel lying inside an occupied tile holds
exactly the bytes it had after the wall layer was composited
(`wallBuffer`): the lighting pass never changes a pixel whose containing grid
cell is occupied. -/
theorem render_occupied_unchanged (m : Map) (x y c : ℕ)
    (hx : x < m.W8) (hy : y < m.H8) (hc : c < 3)
    (hlen : m.pixel_buffer.length = 3 * (m.H8 * m.W8))
    (hocc : m.is_within_square (m.scaledPoint x y) = true) :
    (Map.render m).pixel_buffer[3 * (y * m.W8 + x) + c]? =
      m.wallBuffer[3 * (y * m.W8 + x) + c]? := by
  unfold Map.render
  by_cases hl : m.lights.length = 0
  · rw [if_pos hl]
  · rw [if_neg hl]
    simp only []
    have hwlen : m.wallBuffer.length = 3 * (m.H8 * m.W8) := by rw [wallBuffer_length, hlen]
    rw [lightingPass_getElem m m.wallBuffer hwlen x y c hx hy hc]
    have hpp : m.perPixelColor x y
        (m.wallBuffer.getD (3 * (y * m.W8 + x)) 0)
        (m.wallBuffer.getD (3 * (y * m.W8 + x) + 1) 0)
        (m.wallBuffer.getD (3 * (y * m.W8 + x) + 2) 0) =
        ⟨m.wallBuffer.getD (3 * (y * m.W8 + x)) 0,
         m.wallBuffer.getD (3 * (y * m.W8 + x) + 1) 0,
         m.wallBuffer.getD (3 * (y * m.W8 + x) + 2) 0, 255⟩ := by
      unfold Map.perPixelColor
      simp [hocc]
    rw [hpp]
    have hbd : 3 * (y * m.W8 + x) + c < m.wallBuffer.length := by
      rw [hwlen]
      have := rowMajor_lt x y m.W8 m.H8 hx hy
      omega
    rw [getElem?_eq_some_getD _ _ hbd]
    rcases (by omega : c = 0 ∨ c = 1 ∨ c = 2) with h0 | h1 | h2
    · subst h0; simp [colorComp]
    · subst h1; simp [colorComp]
    · subst h2; simp [colorComp]

/-- C2: for every destination pixel whose containing tile is unoccupied,
`Map::render` produces the final RGB bytes as the left fold `specLightFold`
of the lights, in collection order, over the pixel's wall-layer color: a
light at Euclidean distance `d` is skipped when `d ≥ intensity` or when line
of sight from the light position to the pixel fails, and otherwise the
accumulator becomes the light's color blended over it with factor
`1 - d / intensity`. -/
theorem render_unoccupied_fold (m : Map) (x y c : ℕ)
    (hx : x < m.W8) (hy : y < m.H8) (hc : c < 3)
    (hlen : m.pixel_buffer.length = 3 * (m.H8 * m.W8))
    (hocc : m.is_within_square (m.scaledPoint x y) = false) :
    (Map.render m).pixel_buffer[3 * (y * m.W8 + x) + c]? =
      some (triComp c (specLightFold m (m.scaledPoint x y)
        (m.wallBuffer.getD (3 * (y * m.W8 + x)) 0,
         m.wallBuffer.getD (3 * (y * m.W8 + x) + 1) 0,
         m.wallBuffer.getD (3 * (y * m.W8 + x) + 2) 0))) := by
  have hwlen : m.wallBuffer.length = 3 * (m.H8 * m.W8) := by rw [wallBuffer_length, hlen]
  have hbd : 3 * (y * m.W8 + x) + c < m.wallBuffer.length := by
    rw [hwlen]
    have := rowMajor_lt x y m.W8 m.H8 hx hy
    omega
  unfold Map.render
  by_cases hl : m.lights.length = 0
  · rw [if_pos hl]
    simp only []
    have hnil : m.lights = [] := List.length_eq_zero.mp hl
    unfold specLightFold
    rw [hnil]
    simp only [List.foldl_nil]
    rw [getElem?_eq_some_getD _ _ hbd]
    rcases (by omega : c = 0 ∨ c = 1 ∨ c = 2) with h0 | h1 | h2
    · subst h0; simp [triComp]
    · subst h1; simp [triComp]
    · subst h2; simp [triComp]
  · rw [if_neg hl]
    simp only []
    rw [lightingPass_getElem m m.wallBuffer hwlen x y c hx hy hc]
    have hpp : m.perPixelColor x y
        (m.wallBuffer.getD (3 * (y * m.W8 + x)) 0)
        (m.wallBuffer.getD (3 * (y * m.W8 + x) + 1) 0)
        (m.wallBuffer.getD (3 * (y * m.W8 + x) + 2) 0) =
        m.lights.foldl (m.lightFoldStep (m.scaledPoint x y))
          ⟨m.wallBuffer.getD (3 * (y * m.W8 + x)) 0,
           m.wallBuffer.getD (3 * (y * m.W8 + x) + 1) 0,
           m.wallBuffer.getD (3 * (y * m.W8 + x) + 2) 0, 255⟩ := by
      unfold Map.perPixelColor
      simp [hocc]
    rw [hpp]
    have htriple := lightFold_rgb m (m.scaledPoint x y) m.lights
      ⟨m.wallBuffer.getD (3 * (y * m.W8 + x)) 0,
       m.wallBuffer.getD (3 * (y * m.W8 + x) + 1) 0,
       m.wallBuffer.getD (3 * (y * m.W8 + x) + 2) 0, 255⟩
    unfold specLightFold
    congr 1
    rcases (by omega : c = 0 ∨ c = 1 ∨ c = 2) with h0 | h1 | h2
    · subst h0
      simp only [colorComp, triComp, if_pos rfl]
      rw [← htriple]
    · subst h1
      simp only [colorComp, triComp]
      rw [← htriple]
    · subst h2
      simp only [colorComp, triComp]
      rw [← htriple]

/-- Helper: `as u32` of an integer-valued rational in `[0, 7]` is at most 7. -/
theorem u32cast_intCast_le7 (z : ℤ) (h0 : 0 ≤ z) (h7 : z ≤ 7) : u32cast ((z : ℚ)) ≤ 7 := by
  unfold u32cast rtrunc
  rw [if_pos (by exact_mod_cast h0), Int.floor_intCast]
  have hpow : (2 : ℤ) ^ 32 - 1 = 4294967295 := by norm_num
  rw [hpow, sup_eq_left.mpr h0, inf_eq_left.mpr (by omega : z ≤ 4294967295)]
  omega

/-- Helper: the floor of the `f64` remainder `(q * 8) % 8` for a nonnegative
coordinate `q` lies in `[0, 7]`. -/
theorem root_floor_bounds (q : ℚ) (hq : 0 ≤ q) :
    0 ≤ ⌊q * 8 - 8 * (rtrunc (q * 8 / 8) : ℚ)⌋ ∧ ⌊q * 8 - 8 * (rtrunc (q * 8 / 8) : ℚ)⌋ ≤ 7 := by
  have h88 : q * 8 / 8 = q := by ring
  rw [h88]
  unfold rtrunc
  rw [if_pos hq]
  have hlo : (0 : ℚ) ≤ q * 8 - 8 * (⌊q⌋ : ℚ) := by nlinarith [Int.floor_le q]
  have hhi : q * 8 - 8 * (⌊q⌋ : ℚ) < 8 := by nlinarith [Int.sub_one_lt_floor q]
  constructor
  · exact Int.floor_nonneg.mpr hlo
  · have h8 : ⌊q * 8 - 8 * (⌊q⌋ : ℚ)⌋ < 8 := by
      apply Int.floor_lt.mpr
      exact_mod_cast hhi
    omega

/-- C3: for every bitmask below 256 and every in-grid point, the atlas table
base returned by `get_tex_base` satisfies `x ≤ 56` and `y ≤ 40`, so after
adding the mod-8 sub-tile offset of `get_root_square` the coordinate returned
by `get_tex_cord` lies within `0..63 × 0..47` and the 4-byte texel read at
`(tex_y * 64 + tex_x) * 4` stays inside the `64 * 48 * 4`-byte atlas. -/
theorem get_tex_cord_in_bounds (m : Map) (p : Point) (bitmap : ℕ)
    (_h256 : bitmap < 256) (hx0 : 0 ≤ p.x) (hy0 : 0 ≤ p.y)
    (_hgx : usizecast p.x < m.width) (_hgy : usizecast p.y < m.height) :
    (get_tex_base bitmap).1 ≤ 56 ∧ (get_tex_base bitmap).2 ≤ 40 ∧
    (get_tex_cord p bitmap).1 ≤ 63 ∧ (get_tex_cord p bitmap).2 ≤ 47 ∧
    ((get_tex_cord p bitmap).2 * 64 + (get_tex_cord p bitmap).1) * 4 + 3 < 64 * 48 * 4 := by
  obtain ⟨hbx, hby⟩ := get_tex_base_bounded bitmap
  have hrx := root_floor_bounds p.x hx0
  have hry := root_floor_bounds p.y hy0
  have hux : u32cast (Map.get_root_square p).x ≤ 7 := by
    unfold Map.get_root_square
    exact u32cast_intCast_le7 _ hrx.1 hrx.2
  have huy : u32cast (Map.get_root_square p).y ≤ 7 := by
    unfold Map.get_root_square
    exact u32cast_intCast_le7 _ hry.1 hry.2
  have htx : (get_tex_cord p bitmap).1 ≤ 63 := by
    unfold get_tex_cord
    simp only []
    omega
  have hty : (get_tex_cord p bitmap).2 ≤ 47 := by
    unfold get_tex_cord
    simp only []
    omega
  refine ⟨hbx, hby, htx, hty, ?_⟩
  have : ((get_tex_cord p bitmap).2 * 64 + (get_tex_cord p bitmap).1) * 4 + 3 ≤
      (47 * 64 + 63) * 4 + 3 := by
    have h1 : (get_tex_cord p bitmap).2 * 64 ≤ 47 * 64 := Nat.mul_le_mul_right 64 hty
    omega
  omega

/-- Length of the upscaled byte buffer, peeling the four nested loops. -/
theorem upscaleBuf_length (buf : List ℕ) (w h f c : ℕ) :
    (upscaleBuf buf w h f c).length = h * (f * (w * (f * c))) := by
  unfold upscaleBuf
  refine flatMap_range_length _ h _ (fun i _ => ?_)
  refine flatMap_range_length _ f _ (fun r _ => ?_)
  refine flatMap_range_length _ w _ (fun j _ => ?_)
  refine flatMap_range_length _ f _ (fun s _ => ?_)
  simp

/-- Byte lookup inside the upscaled buffer: decomposing the flat index along
the four nested loops reaches the source byte `(i * w + j) * c + t`. -/
theorem upscaleBuf_getElem (buf : List ℕ) (w h f c i r j s t : ℕ)
    (hi : i < h) (hr : r < f) (hj : j < w) (hs : s < f) (ht : t < c) :
    (upscaleBuf buf w h f c)[i * (f * (w * (f * c))) +
        (r * (w * (f * c)) + (j * (f * c) + (s * c + t)))]? =
      some (buf.getD ((i * w + j) * c + t) 0) := by
  unfold upscaleBuf
  rw [flatMap_range_getElem _ h _
    (fun a _ => flatMap_range_length _ f _ (fun r2 _ => flatMap_range_length _ w _
      (fun j2 _ => flatMap_range_length _ f _ (fun s2 _ => by simp))))
    i _ hi (rowMajor_lt _ r _ f (rowMajor_lt _ j _ w (rowMajor_lt t s c f ht hs) hj) hr)]
  rw [flatMap_range_getElem _ f _
    (fun a _ => flatMap_range_length _ w _ (fun j2 _ => flatMap_range_length _ f _
      (fun s2 _ => by simp)))
    r _ hr (rowMajor_lt _ j _ w (rowMajor_lt t s c f ht hs) hj)]
  rw [flatMap_range_getElem _ w _
    (fun a _ => flatMap_range_length _ f _ (fun s2 _ => by simp))
    j _ hj (rowMajor_lt t s c f ht hs)]
  rw [flatMap_range_getElem _ f _ (fun a _ => by simp) s _ hs ht]
  simp [List.getElem?_map, List.getElem?_range, ht]

/-- C6: `PixelBuffer::upscale` with factor `k ≥ 1` multiplies both dimensions
by `k` and the byte length by `k * k`, and the pixel at `(x, y)` of the
result equals the pixel at `(x / k, y / k)` of the original: each source
pixel becomes a `k × k` block, row-major order and channel count preserved
(`channels = 4` for the `Color` impl, `3` for the `Color3` impl). -/
theorem upscale_correct (b : PixelBuffer) (channels factor x y t : ℕ)
    (hf : 1 ≤ factor) (hlen : b.buffer.length = b.height * b.width * channels)
    (hx : x < b.width * factor) (hy : y < b.height * factor) (ht : t < channels) :
    (b.upscale channels factor).width = b.width * factor ∧
    (b.upscale channels factor).height = b.height * factor ∧
    (b.upscale channels factor).buffer.length = factor * factor * b.buffer.length ∧
    (b.upscale channels factor).buffer[(y * (b.width * factor) + x) * channels + t]? =
      b.buffer[((y / factor) * b.width + x / factor) * channels + t]? := by
  have hfpos : 0 < factor := hf
  refine ⟨rfl, rfl, ?_, ?_⟩
  · show (upscaleBuf b.buffer b.width b.height factor channels).length = _
    rw [upscaleBuf_length, hlen]
    ring
  · show (upscaleBuf b.buffer b.width b.height factor channels)[(y * (b.width * factor) + x) *
      channels + t]? = _
    have hi : y / factor < b.height := (Nat.div_lt_iff_lt_mul hfpos).mpr hy
    have hj : x / factor < b.width := (Nat.div_lt_iff_lt_mul hfpos).mpr hx
    have hr : y % factor < factor := Nat.mod_lt y hfpos
    have hs : x % factor < factor := Nat.mod_lt x hfpos
    have hyd : y = factor * (y / factor) + y % factor := (Nat.div_add_mod y factor).symm
    have hxd : x = factor * (x / factor) + x % factor := (Nat.div_add_mod x factor).symm
    have hidx : (y * (b.width * factor) + x) * channels + t =
        (y / factor) * (factor * (b.width * (factor * channels))) +
          ((y % factor) * (b.width * (factor * channels)) +
            ((x / factor) * (factor * channels) + ((x % factor) * channels + t))) := by
      conv_lhs => rw [hyd, hxd]
      ring
    rw [hidx]
    rw [upscaleBuf_getElem b.buffer b.width b.height factor channels
      (y / factor) (y % factor) (x / factor) (x % factor) t hi hr hj hs ht]
    have hbd : ((y / factor) * b.width + x / factor) * channels + t < b.buffer.length := by
      rw [hlen]
      exact rowMajor_lt t ((y / factor) * b.width + x / factor) channels (b.height * b.width)
        ht (rowMajor_lt (x / factor) (y / factor) b.width b.height hj hi)
    rw [getElem?_eq_some_getD _ _ hbd]

/-- Helper: `getD` of a byte-valued list (default 0) stays below 256. -/
theorem getD_lt_256 (l : List ℕ) (h : ∀ v ∈ l, v < 256) (n : ℕ) : l.getD n 0 < 256 := by
  rcases Nat.lt_or_ge n l.length with hn | hn
  · rw [List.getD_eq_getElem _ _ hn]
    exact h _ (List.getElem_mem hn)
  · rw [List.getD_eq_default _ _ hn]
    omega

/-- Helper: the `as u8` cast is the identity on byte values. -/
theorem u8cast_natCast (k : ℕ) (h : k < 256) : u8cast (k : ℚ) = k := by
  unfold u8cast rtrunc
  rw [if_pos (by positivity), Int.floor_natCast,
    sup_eq_left.mpr (by positivity : (0 : ℤ) ≤ (k : ℤ)),
    inf_eq_left.mpr (by exact_mod_cast Nat.le_of_lt_succ h : (k : ℤ) ≤ 255)]
  simp

/-- Helper: `Color3::blend` with factor 0 returns the `other` color when its
channels are bytes. -/
theorem blend_zero_factor (o s : Color3) (hr : s.r < 256) (hg : s.g < 256) (hb : s.b < 256) :
    Color3.blend o s 0 = s := by
  unfold Color3.blend fclamp01
  have hcl : (0 : ℚ) ⊔ 0 ⊓ 1 = 0 := by norm_num
  simp only [max_self, min_eq_left, zero_le_one, mul_zero, zero_add, sub_zero, mul_one]
  rw [u8cast_natCast _ hr, u8cast_natCast _ hg, u8cast_natCast _ hb]

/-- C7: merging an equal-dimension RGBA overlay whose alpha channel is 0 at
every pixel onto a `Color3` base buffer leaves every byte of the base buffer
unchanged (`merge` returns the base as it was). -/
theorem merge_zero_alpha_id (base overlay : PixelBuffer)
    (hw : base.width = overlay.width) (hh : base.height = overlay.height)
    (hbytes : ∀ v ∈ base.buffer, v < 256)
    (halpha : ∀ i < overlay.width * overlay.height, overlay.buffer.getD (i * 4 + 3) 0 = 0) :
    base.merge overlay = some base := by
  unfold PixelBuffer.merge
  rw [if_pos ⟨hw, hh⟩]
  rcases Nat.eq_zero_or_pos (base.height * base.width) with hz | hpos
  · rw [hz]
    simp
  · have hfix : mergeStep overlay.buffer (base.buffer, 0) = (base.buffer, 0) := by
      unfold mergeStep index_rgba index_rgb index_mut_rgb_set
      simp only []
      have ha : overlay.buffer.getD (0 * 4 + 3) 0 = 0 := by
        apply halpha
        have hcomm : overlay.width * overlay.height = base.height * base.width := by
          rw [← hw, ← hh]
          ring
        omega
      simp only [Nat.zero_mul, Nat.zero_add] at ha ⊢
      rw [ha]
      have hfac : ((0 : ℕ) : ℚ) / 255 = 0 := by norm_num
      rw [hfac]
      rw [blend_zero_factor _ _ (getD_lt_256 _ hbytes _) (getD_lt_256 _ hbytes _)
        (getD_lt_256 _ hbytes _)]
      simp only []
      rw [set_getD_self, set_getD_self, set_getD_self]
    have hconst : ∀ (L : List ℕ),
        L.foldl (fun st _ => mergeStep overlay.buffer st) (base.buffer, 0) = (base.buffer, 0) := by
      intro L
      induction L with
      | nil => rfl
      | cons a t ih =>
        rw [List.foldl_cons, hfix]
        exact ih
    rw [hconst]

/-- Helper: `Color3::blend` with factor 1 returns the `self` color when its
channels are bytes. -/
theorem blend_one_factor (o s : Color3) (hr : o.r < 256) (hg : o.g < 256) (hb : o.b < 256) :
    Color3.blend o s 1 = o := by
  unfold Color3.blend fclamp01
  have hcl : max (1 : ℚ) 0 = 1 := by norm_num
  simp only [hcl, min_self, mul_one, sub_self, mul_zero, add_zero]
  rw [u8cast_natCast _ hr, u8cast_natCast _ hg, u8cast_natCast _ hb]

/-- C1 (failing-input evaluation): merging a fully opaque 2-by-1 overlay
`[(10,20,30,255), (40,50,60,255)]` onto an all-zero 2-by-1 RGB base updates
only pixel 0 — the loop index `i` is never incremented — so the result is
`[10, 20, 30, 0, 0, 0]`: pixel 1 keeps `(0, 0, 0)` instead of becoming the
overlay's `(40, 50, 60)` as the per-pixel compositing claim requires. -/
theorem merge_failing_input_eval :
    PixelBuffer.merge ⟨2, 1, [0, 0, 0, 0, 0, 0], 0⟩
        ⟨2, 1, [10, 20, 30, 255, 40, 50, 60, 255], 0⟩ =
      some ⟨2, 1, [10, 20, 30, 0, 0, 0], 0⟩ := by
  have hfac : (((255 : ℕ) : ℚ) / 255) = 1 := by norm_num
  have hb1 : Color3.blend ⟨10, 20, 30⟩ ⟨0, 0, 0⟩ (((255 : ℕ) : ℚ) / 255) = ⟨10, 20, 30⟩ := by
    rw [hfac]
    exact blend_one_factor _ _ (by norm_num) (by norm_num) (by norm_num)
  have hb2 : Color3.blend ⟨10, 20, 30⟩ ⟨10, 20, 30⟩ (((255 : ℕ) : ℚ) / 255) = ⟨10, 20, 30⟩ := by
    rw [hfac]
    exact blend_one_factor _ _ (by norm_num) (by norm_num) (by norm_num)
  have hstep1 : mergeStep [10, 20, 30, 255, 40, 50, 60, 255] ([0, 0, 0, 0, 0, 0], 0) =
      ([10, 20, 30, 0, 0, 0], 0) := by
    show (index_mut_rgb_set [0, 0, 0, 0, 0, 0] 0
      (Color3.blend ⟨10, 20, 30⟩ ⟨0, 0, 0⟩ (((255 : ℕ) : ℚ) / 255)), 0) =
      ([10, 20, 30, 0, 0, 0], 0)
    rw [hb1]
    rfl
  have hstep2 : mergeStep [10, 20, 30, 255, 40, 50, 60, 255] ([10, 20, 30, 0, 0, 0], 0) =
      ([10, 20, 30, 0, 0, 0], 0) := by
    show (index_mut_rgb_set [10, 20, 30, 0, 0, 0] 0
      (Color3.blend ⟨10, 20, 30⟩ ⟨10, 20, 30⟩ (((255 : ℕ) : ℚ) / 255)), 0) =
      ([10, 20, 30, 0, 0, 0], 0)
    rw [hb2]
    rfl
  unfold PixelBuffer.merge
  rw [if_pos ⟨rfl, rfl⟩]
  have hrange : List.range ((1 : ℕ) * 2) = [0, 1] := by rfl
  rw [hrange]
  simp only [List.foldl_cons, List.foldl_nil]
  rw [hstep1, hstep2]

/-- C5 (failing-input evaluation): a fresh 2-by-2 RGBA buffer has `2 * 2 = 4`
pixels, but the iterator yields exactly one `Color` and then `none`, because
`next` compares the byte cursor (stride 4) against the pixel count
`width * height = 4`; `clear_iter` resets the cursor to 0. -/
theorem iterator_stops_early_eval :
    PixelBuffer.new_rgba 2 2 =
      some ⟨2, 2, [0, 0, 0, 255, 0, 0, 0, 255, 0, 0, 0, 255, 0, 0, 0, 255], 0⟩ ∧
    PixelBuffer.next_rgba ⟨2, 2, [0, 0, 0, 255, 0, 0, 0, 255, 0, 0, 0, 255, 0, 0, 0, 255], 0⟩ =
      some (Color.from_rgba 0 0 0 255,
        ⟨2, 2, [0, 0, 0, 255, 0, 0, 0, 255, 0, 0, 0, 255, 0, 0, 0, 255], 4⟩) ∧
    PixelBuffer.next_rgba ⟨2, 2, [0, 0, 0, 255, 0, 0, 0, 255, 0, 0, 0, 255, 0, 0, 0, 255], 4⟩ =
      none ∧
    PixelBuffer.clear_iter ⟨2, 2, [0, 0, 0, 255, 0, 0, 0, 255, 0, 0, 0, 255, 0, 0, 0, 255], 4⟩ =
      ⟨2, 2, [0, 0, 0, 255, 0, 0, 0, 255, 0, 0, 0, 255, 0, 0, 0, 255], 0⟩ ∧
    (2 : ℕ) * 2 = 4 := by
  refine ⟨by decide, by decide, by decide, by decide, by decide⟩

/-- C10 (failing-input evaluation): on a 9-byte (3-pixel) zero buffer, both
index accesses at pixel 1 are in bounds, yet writing `(1, 2, 3)` through the
`IndexMut` impl (which addresses bytes `4..7`) and reading back through the
`Index` impl (which addresses bytes `3..6`) returns `(0, 1, 2)`, not the
written color: the two operators address different bytes. -/
theorem index_mut_mismatch_eval :
    index_mut_rgb_in_bounds (List.replicate 9 0) 1 ∧
    index_rgb_in_bounds (List.replicate 9 0) 1 ∧
    index_mut_rgb_set (List.replicate 9 0) 1 ⟨1, 2, 3⟩ = [0, 0, 0, 0, 1, 2, 3, 0, 0] ∧
    index_rgb (index_mut_rgb_set (List.replicate 9 0) 1 ⟨1, 2, 3⟩) 1 = ⟨0, 1, 2⟩ ∧
    (⟨0, 1, 2⟩ : Color3) ≠ ⟨1, 2, 3⟩ := by
  refine ⟨by decide, by decide, by decide, by decide, by decide⟩

/-- C8 (counterexample): constructing a `Map` with an empty decoded texture
byte array — whose length 0 is not `64 * 48 * 4` — succeeds and stores the
mismatched texture as-is; `Map::new` performs no dimension or channel-count
validation, contradicting the fail-fast claim. -/
theorem map_new_accepts_bad_texture :
    (Map.new 1 1 1 []).texture = [] ∧ ([] : List ℕ).length ≠ 64 * 48 * 4 := by
  exact ⟨rfl, by decide⟩

/-- C8 (amended): `Map::new` accepts any decoded texture byte array without
validating its dimensions or length; the texture is stored unchanged and a
size mismatch only surfaces later, when the atlas is sampled. -/
theorem map_new_no_validation (height width sim_scale : ℕ) (texture : List ℕ) :
    (Map.new height width sim_scale texture).texture = texture := rfl

set_option maxRecDepth 4000 in
/-- Witness for C4 at the concrete occupied map, pixel `(0, 0)`, byte 0. -/
theorem render_occupied_unchanged_witness :
    ((0 : ℕ) < occupiedTestMap.W8 ∧ (0 : ℕ) < occupiedTestMap.H8 ∧ (0 : ℕ) < 3 ∧
      occupiedTestMap.pixel_buffer.length = 3 * (occupiedTestMap.H8 * occupiedTestMap.W8) ∧
      occupiedTestMap.is_within_square (occupiedTestMap.scaledPoint 0 0) = true) ∧
    (Map.render occupiedTestMap).pixel_buffer[3 * (0 * occupiedTestMap.W8 + 0) + 0]? =
      occupiedTestMap.wallBuffer[3 * (0 * occupiedTestMap.W8 + 0) + 0]? := by
  have hocc : occupiedTestMap.is_within_square (occupiedTestMap.scaledPoint 0 0) = true := by
    norm_num [occupiedTestMap, Map.is_within_square, Map.scaledPoint, Map.sq, usizecast, rtrunc]
  refine ⟨⟨by decide, by decide, by decide, by decide, hocc⟩, ?_⟩
  exact render_occupied_unchanged occupiedTestMap 0 0 0 (by decide) (by decide) (by decide)
    (by decide) hocc

set_option maxRecDepth 4000 in
/-- Witness for C2 at the concrete unoccupied map, pixel `(0, 0)`, byte 0. -/
theorem render_unoccupied_fold_witness :
    ((0 : ℕ) < freeTestMap.W8 ∧ (0 : ℕ) < freeTestMap.H8 ∧ (0 : ℕ) < 3 ∧
      freeTestMap.pixel_buffer.length = 3 * (freeTestMap.H8 * freeTestMap.W8) ∧
      freeTestMap.is_within_square (freeTestMap.scaledPoint 0 0) = false) ∧
    (Map.render freeTestMap).pixel_buffer[3 * (0 * freeTestMap.W8 + 0) + 0]? =
      some (triComp 0 (specLightFold freeTestMap (freeTestMap.scaledPoint 0 0)
        (freeTestMap.wallBuffer.getD (3 * (0 * freeTestMap.W8 + 0)) 0,
         freeTestMap.wallBuffer.getD (3 * (0 * freeTestMap.W8 + 0) + 1) 0,
         freeTestMap.wallBuffer.getD (3 * (0 * freeTestMap.W8 + 0) + 2) 0))) := by
  have hocc : freeTestMap.is_within_square (freeTestMap.scaledPoint 0 0) = false := by
    norm_num [freeTestMap, Map.is_within_square, Map.scaledPoint, Map.sq, usizecast, rtrunc]
  refine ⟨⟨by decide, by decide, by decide, by decide, hocc⟩, ?_⟩
  exact render_unoccupied_fold freeTestMap 0 0 0 (by decide) (by decide) (by decide)
    (by decide) hocc

/-- Witness for C3 at the all-zero bitmask and the origin point of a 1-by-1
map. -/
theorem get_tex_cord_in_bounds_witness :
    ((0 : ℕ) < 256 ∧ (0 : ℚ) ≤ 0 ∧ usizecast 0 < (Map.new 1 1 1 []).width) ∧
    ((get_tex_base 0).1 ≤ 56 ∧ (get_tex_base 0).2 ≤ 40 ∧
     (get_tex_cord ⟨0, 0⟩ 0).1 ≤ 63 ∧ (get_tex_cord ⟨0, 0⟩ 0).2 ≤ 47 ∧
     ((get_tex_cord ⟨0, 0⟩ 0).2 * 64 + (get_tex_cord ⟨0, 0⟩ 0).1) * 4 + 3 < 64 * 48 * 4) := by
  have hcast : usizecast (0 : ℚ) < (Map.new 1 1 1 []).width := by
    norm_num [usizecast, rtrunc, Map.new]
  refine ⟨⟨by decide, le_refl 0, hcast⟩, ?_⟩
  exact get_tex_cord_in_bounds (Map.new 1 1 1 []) ⟨0, 0⟩ 0 (by decide) (le_refl 0) (le_refl 0)
    hcast hcast

/-- Witness for C6: upscaling the 2-by-1 RGB buffer `[1,2,3,4,5,6]` by 2 and
sampling result pixel `(3, 1)`, byte 2. -/
theorem upscale_correct_witness :
    ((1 : ℕ) ≤ 2 ∧
      (PixelBuffer.mk 2 1 [1, 2, 3, 4, 5, 6] 0).buffer.length =
        (PixelBuffer.mk 2 1 [1, 2, 3, 4, 5, 6] 0).height *
          (PixelBuffer.mk 2 1 [1, 2, 3, 4, 5, 6] 0).width * 3 ∧
      (3 : ℕ) < (PixelBuffer.mk 2 1 [1, 2, 3, 4, 5, 6] 0).width * 2 ∧
      (1 : ℕ) < (PixelBuffer.mk 2 1 [1, 2, 3, 4, 5, 6] 0).height * 2 ∧ (2 : ℕ) < 3) ∧
    (((PixelBuffer.mk 2 1 [1, 2, 3, 4, 5, 6] 0).upscale 3 2).width =
        (PixelBuffer.mk 2 1 [1, 2, 3, 4, 5, 6] 0).width * 2 ∧
      ((PixelBuffer.mk 2 1 [1, 2, 3, 4, 5, 6] 0).upscale 3 2).height =
        (PixelBuffer.mk 2 1 [1, 2, 3, 4, 5, 6] 0).height * 2 ∧
      ((PixelBuffer.mk 2 1 [1, 2, 3, 4, 5, 6] 0).upscale 3 2).buffer.length =
        2 * 2 * (PixelBuffer.mk 2 1 [1, 2, 3, 4, 5, 6] 0).buffer.length ∧
      ((PixelBuffer.mk 2 1 [1, 2, 3, 4, 5, 6] 0).upscale 3 2).buffer[(1 *
            ((PixelBuffer.mk 2 1 [1, 2, 3, 4, 5, 6] 0).width * 2) + 3) * 3 + 2]? =
        (PixelBuffer.mk 2 1 [1, 2, 3, 4, 5, 6] 0).buffer[((1 / 2) *
            (PixelBuffer.mk 2 1 [1, 2, 3, 4, 5, 6] 0).width + 3 / 2) * 3 + 2]?) := by
  refine ⟨⟨by decide, by decide, by decide, by decide, by decide⟩, ?_⟩
  exact upscale_correct (PixelBuffer.mk 2 1 [1, 2, 3, 4, 5, 6] 0) 3 2 3 1 2 (by decide)
    (by decide) (by decide) (by decide) (by decide)

/-- Witness for C7: a 1-by-1 base `[5,6,7]` merged with the zero-alpha
overlay `[9,9,9,0]` is returned unchanged. -/
theorem merge_zero_alpha_id_witness :
    ((PixelBuffer.mk 1 1 [5, 6, 7] 0).width = (PixelBuffer.mk 1 1 [9, 9, 9, 0] 0).width ∧
      (PixelBuffer.mk 1 1 [5, 6, 7] 0).height = (PixelBuffer.mk 1 1 [9, 9, 9, 0] 0).height ∧
      (∀ v ∈ (PixelBuffer.mk 1 1 [5, 6, 7] 0).buffer, v < 256) ∧
      (∀ i < (PixelBuffer.mk 1 1 [9, 9, 9, 0] 0).width *
          (PixelBuffer.mk 1 1 [9, 9, 9, 0] 0).height,
        (PixelBuffer.mk 1 1 [9, 9, 9, 0] 0).buffer.getD (i * 4 + 3) 0 = 0)) ∧
    (PixelBuffer.mk 1 1 [5, 6, 7] 0).merge (PixelBuffer.mk 1 1 [9, 9, 9, 0] 0) =
      some (PixelBuffer.mk 1 1 [5, 6, 7] 0) := by
  refine ⟨⟨by decide, by decide, by decide, by decide⟩, ?_⟩
  exact merge_zero_alpha_id (PixelBuffer.mk 1 1 [5, 6, 7] 0) (PixelBuffer.mk 1 1 [9, 9, 9, 0] 0)
    (by decide) (by decide) (by decide) (by decide)
